import Mathlib

/-!
Shallow embedding of `src/activity_tracker.py` (class `ActivityWatchTracker`).

Modelling conventions:
* A naive Python `datetime` value is embedded as an exact rational number of
  seconds since 0001-01-01 00:00:00 local time (day 0 of the proleptic
  Gregorian calendar; that day is a Monday, so `weekday` is a plain `mod 7`
  of the day index, matching Python's `datetime.weekday()` convention
  Monday = 0).
* `timedelta` arithmetic is exact rational addition (Python timedeltas are
  exact to the microsecond; the claims under scrutiny are about the exact
  arithmetic structure, so durations and hour counts are embedded as `ℚ`).
* The HTTP layer is abstracted: `get_buckets` becomes an explicit list of
  bucket ids, and `get_events` becomes an explicit function from
  (bucket id, start ISO string, end ISO string) to a list of events,
  matching the empty-result-on-error policy (an erroring fetch is a fetch
  returning `[]`).
* `datetime.now()` becomes an explicit `now : ℚ` parameter.
-/

/-! ### Time model -/

/-- The day index (days since 0001-01-01) of an instant, i.e. the `date()`
part of a Python datetime. -/
def dayIndex (t : ℚ) : ℤ := ⌊t / 86400⌋

/-- `t.replace(hour=0, minute=0, second=0, microsecond=0)`: the midnight
that starts `t`'s day. -/
def dayStart (t : ℚ) : ℚ := (86400 : ℚ) * dayIndex t

/-- Seconds elapsed since the start of `t`'s day. -/
def timeOfDay (t : ℚ) : ℚ := t - dayStart t

/-- Python `datetime.weekday()`: Monday = 0 .. Sunday = 6.  Day 0 of the
proleptic Gregorian calendar (0001-01-01) is a Monday. -/
def weekday (t : ℚ) : ℤ := dayIndex t % 7

/-! ### Calendar rendering (strftime / isoformat)

`civilFromDays` converts a day index (days since 0001-01-01) to a proleptic
Gregorian (year, month, day) triple; it is the standard civil-from-days
algorithm written with floor division. -/

def civilFromDays (day : ℤ) : ℤ × ℤ × ℤ :=
  let z := day + 306
  let era := Int.fdiv z 146097
  let doe := z - era * 146097
  let yoe := Int.fdiv (doe - Int.fdiv doe 1460 + Int.fdiv doe 36524 - Int.fdiv doe 146096) 365
  let y := yoe + era * 400
  let doy := doe - (365 * yoe + Int.fdiv yoe 4 - Int.fdiv yoe 100)
  let mp := Int.fdiv (5 * doy + 2) 153
  let d := doy - Int.fdiv (153 * mp + 2) 5 + 1
  let m := mp + (if mp < 10 then 3 else -9)
  (y + (if m ≤ 2 then 1 else 0), m, d)

/-- Inverse direction, used to build concrete test dates: days since
0001-01-01 of a given (year, month, day). -/
def daysFromCivil (y m d : ℤ) : ℤ :=
  let y2 := y - (if m ≤ 2 then 1 else 0)
  let era := Int.fdiv y2 400
  let yoe := y2 - era * 400
  let mp := if 2 < m then m - 3 else m + 9
  let doy := Int.fdiv (153 * mp + 2) 5 + d - 1
  let doe := yoe * 365 + Int.fdiv yoe 4 - Int.fdiv yoe 100 + doy
  era * 146097 + doe - 306

/-- The instant midnight local time on a given civil date (test helper). -/
def civilDate (y m d : ℤ) : ℚ := (86400 : ℚ) * daysFromCivil y m d

/-- Zero-padded 2-digit decimal rendering (`%02d` for the values < 100 the
program produces). -/
def pad2 (n : ℕ) : String := if n < 10 then "0" ++ Nat.repr n else Nat.repr n

/-- Zero-padded 4-digit decimal rendering (`%04d`, Python year field). -/
def pad4 (n : ℕ) : String :=
  if n < 10 then "000" ++ Nat.repr n
  else if n < 100 then "00" ++ Nat.repr n
  else if n < 1000 then "0" ++ Nat.repr n
  else Nat.repr n

/-- Zero-padded 6-digit decimal rendering (`%06d`, microsecond field). -/
def pad6 (n : ℕ) : String :=
  if n < 10 then "00000" ++ Nat.repr n
  else if n < 100 then "0000" ++ Nat.repr n
  else if n < 1000 then "000" ++ Nat.repr n
  else if n < 10000 then "00" ++ Nat.repr n
  else if n < 100000 then "0" ++ Nat.repr n
  else Nat.repr n

/-- `strftime("%H:%M:%S")`: clock time of day, whole seconds. -/
def fmtHMS (t : ℚ) : String :=
  let s : ℕ := (⌊timeOfDay t⌋).toNat
  pad2 (s / 3600) ++ ":" ++ pad2 (s % 3600 / 60) ++ ":" ++ pad2 (s % 60)

/-- `strftime("%Y-%m-%d")` / the date part of `isoformat()`. -/
def isoDateStr (t : ℚ) : String :=
  let c := civilFromDays (dayIndex t)
  pad4 c.1.toNat ++ "-" ++ pad2 c.2.1.toNat ++ "-" ++ pad2 c.2.2.toNat

/-- The `.ffffff` suffix `isoformat()` appends when the microsecond field is
nonzero. -/
def microSuffix (t : ℚ) : String :=
  let u := (⌊timeOfDay t * 1000000⌋).toNat % 1000000
  if u = 0 then "" else "." ++ pad6 u

/-- Python's naive `datetime.isoformat()`: `YYYY-MM-DDTHH:MM:SS[.ffffff]`,
with no UTC offset (naive datetimes carry no tzinfo). -/
def isoformat (t : ℚ) : String :=
  isoDateStr t ++ "T" ++ fmtHMS t ++ microSuffix t

/-! ### Event model

A JSON event is `{duration: float, data: {status: string}}`, any of whose
parts may be missing; `calculate_daily_time` reads it with
`event.get("duration", 0)`, `event.get("data", {})`, and
`data.get("status", "unknown")`. -/

structure EventData where
  status : Option String
deriving Repr, DecidableEq

structure Event where
  duration : Option ℚ
  data : Option EventData
deriving Repr, DecidableEq

/-- `event.get("duration", 0)`. -/
def eventDuration (e : Event) : ℚ := e.duration.getD 0

/-- `event.get("data", {}).get("status", "unknown")`. -/
def eventStatus (e : Event) : String := ((e.data.getD ⟨none⟩).status).getD "unknown"

/-- Seconds an event adds to `total_active_seconds`
(`if status == "not-afk": total_active_seconds += duration`). -/
def activeContrib (e : Event) : ℚ :=
  if eventStatus e = "not-afk" then eventDuration e else 0

/-- Seconds an event adds to `total_idle_seconds`
(`elif status == "afk": total_idle_seconds += duration`). -/
def idleContrib (e : Event) : ℚ :=
  if eventStatus e = "afk" then eventDuration e else 0

/-- The inner per-bucket loop of `calculate_daily_time`: total
(active, idle) seconds contributed by one bucket's events. -/
def processBucket (events : List Event) : ℚ × ℚ :=
  ((events.map activeContrib).sum, (events.map idleContrib).sum)

/-! ### Tracker operations -/

/-- The AFK-bucket test `"afk" in bucket_id.lower()` (`str.lower` mapped
over the characters, then a substring test). -/
def containsAfk (bid : String) : Bool :=
  decide (List.IsInfix "afk".data (bid.data.map Char.toLower))

/-- Lines 64-69 of `calculate_daily_time`: the day window
`[start_of_day, start_of_day + 24h)` and its two `isoformat()` bounds
passed to `get_events`. -/
def dayWindow (targetDate : ℚ) : ℚ × ℚ :=
  (dayStart targetDate, dayStart targetDate + 86400)

def dayWindowIso (targetDate : ℚ) : String × String :=
  (isoformat (dayWindow targetDate).1, isoformat (dayWindow targetDate).2)

/-- `calculate_daily_time` (lines 57-121).  `buckets` is the key list of the
mapping returned by `get_buckets`; `fetch` stands for
`get_events(bucket_id, start_iso, end_iso)`. -/
def calculate_daily_time (buckets : List String)
    (fetch : String → String → String → List Event) (targetDate : ℚ) : ℚ × ℚ :=
  let startIso := (dayWindowIso targetDate).1
  let endIso := (dayWindowIso targetDate).2
  if buckets.isEmpty then (0, 0)
  else
    let afkBuckets := buckets.filter fun bid => containsAfk bid
    if afkBuckets.isEmpty then (0, 0)
    else
      let perBucket := afkBuckets.map fun bid => processBucket (fetch bid startIso endIso)
      (((perBucket.map Prod.fst).sum) / 3600, ((perBucket.map Prod.snd).sum) / 3600)

/-- `get_week_range` (lines 123-139). -/
def get_week_range (targetDate : ℚ) : ℚ × ℚ :=
  let daysSinceMonday := weekday targetDate
  let weekStart0 := targetDate - (daysSinceMonday : ℚ) * 86400
  let weekStart := dayStart weekStart0
  (weekStart, weekStart + 7 * 86400)

/-- `strftime("%A")` as a function of the weekday index (C locale). -/
def weekdayName (w : ℤ) : String :=
  if w = 0 then "Monday"
  else if w = 1 then "Tuesday"
  else if w = 2 then "Wednesday"
  else if w = 3 then "Thursday"
  else if w = 4 then "Friday"
  else if w = 5 then "Saturday"
  else "Sunday"

/-- `calculate_weekly_time` (lines 141-174).  The `while current_date <
week_end` loop steps by exactly one day from `week_start` to
`week_start + 7 days`, so it runs exactly 7 iterations; it is embedded as a
map over those 7 day instants. -/
def calculate_weekly_time (buckets : List String)
    (fetch : String → String → String → List Event) (targetDate : ℚ) :
    ℚ × ℚ × List (String × ℚ) :=
  let weekStart := (get_week_range targetDate).1
  let days := (List.range 7).map fun (i : ℕ) => weekStart + (i : ℚ) * 86400
  let results := days.map fun d => (d, calculate_daily_time buckets fetch d)
  ((results.map fun r => r.2.1).sum,
   (results.map fun r => r.2.2).sum,
   results.map fun r =>
     (weekdayName (weekday r.1) ++ " (" ++ isoDateStr r.1 ++ ")", r.2.1))

/-- `calculate_finish_time` (lines 176-195); `now` stands for
`datetime.now()`. -/
def calculate_finish_time (activeHours targetHours now : ℚ) : String :=
  if activeHours ≥ targetHours then "Already completed target hours!"
  else
    let remainingSeconds := (targetHours - activeHours) * 3600
    fmtHMS (now + remainingSeconds)

/-- `calculate_overtime_range` (lines 197-230); `targetDate = none` models
the Python default `target_date=None`. -/
def calculate_overtime_range (activeHours targetHours : ℚ)
    (targetDate : Option ℚ) (now : ℚ) : String :=
  if activeHours ≤ targetHours then ""
  else
    let overtimeSeconds := (activeHours - targetHours) * 3600
    let endTime :=
      match targetDate with
      | none => now
      | some td => if dayIndex td = dayIndex now then now
                   else dayStart td + 18 * 3600 + overtimeSeconds
    let overtimeStart := endTime - overtimeSeconds
    fmtHMS overtimeStart ++ " - " ++ fmtHMS endTime

/-- `is_holiday` (lines 232-241): `target_date.weekday() in [5, 6]`. -/
def is_holiday (t : ℚ) : Bool :=
  weekday t == 5 || weekday t == 6

/-- `get_holiday_info` (lines 243-255). -/
def get_holiday_info (t : ℚ) : String :=
  if weekday t = 5 then "Saturday"
  else if weekday t = 6 then "Sunday"
  else ""

/-- `calculate_holiday_overtime_range` (lines 257-284). -/
def calculate_holiday_overtime_range (activeHours : ℚ)
    (targetDate : Option ℚ) (now : ℚ) : String :=
  if activeHours ≤ 0 then ""
  else
    let activeSeconds := activeHours * 3600
    let endTime :=
      match targetDate with
      | none => now
      | some td => if dayIndex td = dayIndex now then now
                   else dayStart td + 9 * 3600 + activeSeconds
    let startTime := endTime - activeSeconds
    fmtHMS startTime ++ " - " ++ fmtHMS endTime

/-! ### Format predicates (used to state claims about string shapes) -/

/-- An 8-character `HH:MM:SS` clock string: digits with colons at
positions 2 and 5. -/
def isHMS (s : String) : Bool :=
  match s.data with
  | [h1, h2, c1, m1, m2, c2, s1, s2] =>
      h1.isDigit && h2.isDigit && c1 == ':' && m1.isDigit && m2.isDigit &&
      c2 == ':' && s1.isDigit && s2.isDigit
  | _ => false

/-- Whether a timestamp string carries an ISO-8601 UTC offset: it ends in
`Z` or in a `±HH:MM` suffix. -/
def hasUtcOffset (s : String) : Bool :=
  let cs := s.data
  let n := cs.length
  (match cs.drop (n - 1) with
   | ['Z'] => true
   | _ => false) ||
  (match cs.drop (n - 6) with
   | [a, b, c, d, e, f] =>
       (a == '+' || a == '-') && b.isDigit && c.isDigit && d == ':' &&
       e.isDigit && f.isDigit
   | _ => false)

/-! ### Time arithmetic lemmas -/

lemma timeOfDay_eq_fract (t : ℚ) : timeOfDay t = 86400 * Int.fract (t / 86400) := by
  unfold timeOfDay dayStart dayIndex Int.fract
  field_simp

lemma timeOfDay_nonneg (t : ℚ) : 0 ≤ timeOfDay t := by
  rw [timeOfDay_eq_fract]
  exact mul_nonneg (by norm_num) (Int.fract_nonneg _)

lemma timeOfDay_lt (t : ℚ) : timeOfDay t < 86400 := by
  rw [timeOfDay_eq_fract]
  have h := Int.fract_lt_one (t / 86400)
  nlinarith [Int.fract_nonneg (t / 86400)]

lemma dayStart_le (t : ℚ) : dayStart t ≤ t := by
  have h := timeOfDay_nonneg t
  unfold timeOfDay at h
  linarith

lemma lt_dayStart_add (t : ℚ) : t < dayStart t + 86400 := by
  have h := timeOfDay_lt t
  unfold timeOfDay at h
  linarith

lemma dayIndex_add_mul (t : ℚ) (k : ℤ) : dayIndex (t + (k : ℚ) * 86400) = dayIndex t + k := by
  unfold dayIndex
  rw [show (t + (k : ℚ) * 86400) / 86400 = t / 86400 + (k : ℚ) by field_simp]
  exact Int.floor_add_int _ _

lemma dayIndex_int_mul (m : ℤ) : dayIndex ((86400 : ℚ) * (m : ℚ)) = m := by
  unfold dayIndex
  rw [show (86400 : ℚ) * (m : ℚ) / 86400 = (m : ℚ) by field_simp]
  exact Int.floor_intCast m

lemma dayIndex_dayStart (t : ℚ) : dayIndex (dayStart t) = dayIndex t := by
  unfold dayStart
  exact dayIndex_int_mul (dayIndex t)

lemma dayStart_dayStart (t : ℚ) : dayStart (dayStart t) = dayStart t := by
  unfold dayStart
  rw [dayIndex_int_mul]

lemma timeOfDay_dayStart (t : ℚ) : timeOfDay (dayStart t) = 0 := by
  unfold timeOfDay
  rw [dayStart_dayStart]
  ring

lemma dayStart_add_mul (t : ℚ) (k : ℤ) :
    dayStart (t + (k : ℚ) * 86400) = dayStart t + (k : ℚ) * 86400 := by
  unfold dayStart
  rw [dayIndex_add_mul]
  push_cast
  ring

lemma timeOfDay_add_mul (t : ℚ) (k : ℤ) : timeOfDay (t + (k : ℚ) * 86400) = timeOfDay t := by
  unfold timeOfDay
  rw [dayStart_add_mul]
  ring

lemma weekday_nonneg (t : ℚ) : 0 ≤ weekday t :=
  Int.emod_nonneg _ (by norm_num)

lemma weekday_lt (t : ℚ) : weekday t < 7 :=
  Int.emod_lt_of_pos _ (by norm_num)

lemma fmtHMS_add_mul (t : ℚ) (k : ℤ) : fmtHMS (t + (k : ℚ) * 86400) = fmtHMS t := by
  unfold fmtHMS
  rw [timeOfDay_add_mul]

lemma get_week_range_fst (t : ℚ) :
    (get_week_range t).1 = 86400 * ((dayIndex t - weekday t : ℤ) : ℚ) := by
  show dayStart (t - (weekday t : ℚ) * 86400) = _
  rw [show t - (weekday t : ℚ) * 86400 = t + ((-weekday t : ℤ) : ℚ) * 86400 by push_cast; ring]
  unfold dayStart
  rw [dayIndex_add_mul]
  push_cast
  ring

/-! ### String shape lemmas -/

/-- A 2-character all-digit string. -/
def twoDigitStr (s : String) : Bool :=
  match s.data with
  | [a, b] => a.isDigit && b.isDigit
  | _ => false

lemma pad2_twoDigit : ∀ n, n < 100 → twoDigitStr (pad2 n) = true := by decide

lemma isHMS_parts (x y z : String) (hx : twoDigitStr x = true)
    (hy : twoDigitStr y = true) (hz : twoDigitStr z = true) :
    isHMS (x ++ ":" ++ y ++ ":" ++ z) = true := by
  obtain ⟨xs⟩ := x
  obtain ⟨ys⟩ := y
  obtain ⟨zs⟩ := z
  unfold twoDigitStr at hx hy hz
  simp only at hx hy hz
  rcases xs with _ | ⟨a, _ | ⟨b, _ | _⟩⟩ <;> simp_all
  rcases ys with _ | ⟨c, _ | ⟨d, _ | _⟩⟩ <;> simp_all
  rcases zs with _ | ⟨e, _ | ⟨f, _ | _⟩⟩ <;> simp_all
  unfold isHMS
  simp only [String.data_append]
  simp_all

lemma todSec_lt (t : ℚ) : (⌊timeOfDay t⌋).toNat < 86400 := by
  have h1 := timeOfDay_lt t
  have h2 : ⌊timeOfDay t⌋ < (86400 : ℤ) := by
    apply Int.floor_lt.mpr
    exact_mod_cast h1
  omega

lemma fmtHMS_isHMS (t : ℚ) : isHMS (fmtHMS t) = true := by
  have h := todSec_lt t
  unfold fmtHMS
  apply isHMS_parts <;> apply pad2_twoDigit <;> omega

lemma fmtHMS_of_tod0 (t : ℚ) (h : timeOfDay t = 0) : fmtHMS t = "00:00:00" := by
  unfold fmtHMS
  rw [h]
  rfl

lemma microSuffix_of_tod0 (t : ℚ) (h : timeOfDay t = 0) : microSuffix t = "" := by
  unfold microSuffix
  rw [h]
  norm_num

lemma isoformat_of_tod0 (t : ℚ) (h : timeOfDay t = 0) :
    isoformat t = isoDateStr t ++ "T00:00:00" := by
  unfold isoformat
  rw [fmtHMS_of_tod0 t h, microSuffix_of_tod0 t h]
  apply String.ext
  simp only [String.data_append]
  simp

lemma hasUtcOffset_T00 (p : String) : hasUtcOffset (p ++ "T00:00:00") = false := by
  unfold hasUtcOffset
  simp only [String.data_append]
  have hl : (p.data ++ ['T', '0', '0', ':', '0', '0', ':', '0', '0']).length
      = p.data.length + 9 := by simp
  rw [hl]
  have e1 : p.data.length + 9 - 1 = p.data.length + 8 := by omega
  have e2 : p.data.length + 9 - 6 = p.data.length + 3 := by omega
  rw [e1, e2, List.drop_append 8, List.drop_append 3]
  decide

lemma timeOfDay_int_mul (m : ℤ) : timeOfDay ((86400 : ℚ) * (m : ℚ)) = 0 := by
  unfold timeOfDay dayStart
  rw [dayIndex_int_mul]
  ring

lemma sum_contrib (es : List Event) (st : String) :
    (es.map fun e => if eventStatus e = st then eventDuration e else 0).sum
      = ((es.filter fun e => eventStatus e == st).map eventDuration).sum := by
  induction es with
  | nil => rfl
  | cons e es ih =>
    by_cases h : eventStatus e = st <;> simp [List.filter_cons, h, ih]

lemma processBucket_fst (es : List Event) :
    (processBucket es).1
      = ((es.filter fun e => eventStatus e == "not-afk").map eventDuration).sum := by
  unfold processBucket activeContrib
  exact sum_contrib es "not-afk"

lemma processBucket_snd (es : List Event) :
    (processBucket es).2
      = ((es.filter fun e => eventStatus e == "afk").map eventDuration).sum := by
  unfold processBucket idleContrib
  exact sum_contrib es "afk"

lemma weekday_week_add (t : ℚ) (i : ℕ) (hi : i < 7) :
    weekday ((get_week_range t).1 + (i : ℚ) * 86400) = i := by
  rw [get_week_range_fst]
  rw [show (86400 : ℚ) * ((dayIndex t - weekday t : ℤ) : ℚ) + (i : ℚ) * 86400
      = (86400 : ℚ) * ((dayIndex t - weekday t + i : ℤ) : ℚ) by push_cast; ring]
  unfold weekday
  rw [dayIndex_int_mul]
  omega

/-! ### Claim theorems -/

/-- C3: for every datetime `d`, `get_week_range d` returns `(weekStart,
weekEnd)` where `weekStart` is a Monday at 00:00:00, `weekStart ≤ d <
weekEnd`, and `weekEnd - weekStart` is exactly 7 days. -/
theorem c3_week_range_correct (d : ℚ) :
    weekday (get_week_range d).1 = 0 ∧
    timeOfDay (get_week_range d).1 = 0 ∧
    (get_week_range d).1 ≤ d ∧
    d < (get_week_range d).2 ∧
    (get_week_range d).2 - (get_week_range d).1 = 7 * 86400 := by
  have hfst := get_week_range_fst d
  have hsnd : (get_week_range d).2 = (get_week_range d).1 + 7 * 86400 := rfl
  have hw0 := weekday_nonneg d
  have hw7 := weekday_lt d
  have hds : (86400 : ℚ) * ((dayIndex d : ℤ) : ℚ) ≤ d := dayStart_le d
  have hlt : d < (86400 : ℚ) * ((dayIndex d : ℤ) : ℚ) + 86400 := lt_dayStart_add d
  refine ⟨?_, ?_, ?_, ?_, ?_⟩
  · rw [hfst]
    unfold weekday
    rw [dayIndex_int_mul]
    omega
  · rw [hfst]
    exact timeOfDay_int_mul _
  · rw [hfst]
    have hcast : ((dayIndex d - weekday d : ℤ) : ℚ) ≤ ((dayIndex d : ℤ) : ℚ) := by
      push_cast
      have : (0 : ℚ) ≤ ((weekday d : ℤ) : ℚ) := by exact_mod_cast hw0
      linarith
    nlinarith
  · rw [hsnd, hfst]
    have hcast : ((dayIndex d : ℤ) : ℚ) + 1 ≤ ((dayIndex d - weekday d : ℤ) : ℚ) + 7 := by
      push_cast
      have : ((weekday d : ℤ) : ℚ) ≤ 6 := by exact_mod_cast (by omega : weekday d ≤ 6)
      linarith
    nlinarith
  · rw [hsnd]
    ring

/-- C8: `is_holiday d` holds exactly when `d`'s Monday-0 weekday index is 5
or 6, and `get_holiday_info` returns "Saturday" / "Sunday" / "" matching the
same indices. -/
theorem c8_holiday_detection (d : ℚ) :
    (is_holiday d = true ↔ weekday d = 5 ∨ weekday d = 6) ∧
    (get_holiday_info d = "Saturday" ↔ weekday d = 5) ∧
    (get_holiday_info d = "Sunday" ↔ weekday d = 6) ∧
    (get_holiday_info d = "" ↔ ¬(weekday d = 5 ∨ weekday d = 6)) := by
  unfold is_holiday get_holiday_info
  by_cases h5 : weekday d = 5 <;> by_cases h6 : weekday d = 6 <;>
    simp [h5, h6]

/-- C1: `calculate_daily_time` returns active hours = (sum of `duration`
over fetched AFK-bucket events with status "not-afk") / 3600 and idle hours
= (sum over events with status "afk") / 3600; other statuses count toward
neither sum. -/
theorem c1_daily_time_sums (buckets : List String)
    (fetch : String → String → String → List Event) (d : ℚ) :
    calculate_daily_time buckets fetch d =
      ((((buckets.filter fun b => containsAfk b).map fun b =>
          (((fetch b (dayWindowIso d).1 (dayWindowIso d).2).filter
              fun e => eventStatus e == "not-afk").map eventDuration).sum).sum) / 3600,
       (((buckets.filter fun b => containsAfk b).map fun b =>
          (((fetch b (dayWindowIso d).1 (dayWindowIso d).2).filter
              fun e => eventStatus e == "afk").map eventDuration).sum).sum) / 3600) := by
  simp only [calculate_daily_time]
  by_cases hE : buckets.isEmpty = true
  · rw [if_pos hE]
    rw [List.isEmpty_iff] at hE
    simp [hE]
  · rw [if_neg hE]
    by_cases hA : (buckets.filter fun bid => containsAfk bid).isEmpty = true
    · rw [if_pos hA]
      rw [List.isEmpty_iff] at hA
      simp [hA]
    · rw [if_neg hA]
      have hfst : (((buckets.filter fun bid => containsAfk bid).map fun bid =>
            processBucket (fetch bid (dayWindowIso d).1 (dayWindowIso d).2)).map Prod.fst)
          = (buckets.filter fun b => containsAfk b).map fun b =>
              (((fetch b (dayWindowIso d).1 (dayWindowIso d).2).filter
                  fun e => eventStatus e == "not-afk").map eventDuration).sum := by
        rw [List.map_map]
        apply List.map_congr_left
        intro b _
        exact processBucket_fst _
      have hsnd : (((buckets.filter fun bid => containsAfk bid).map fun bid =>
            processBucket (fetch bid (dayWindowIso d).1 (dayWindowIso d).2)).map Prod.snd)
          = (buckets.filter fun b => containsAfk b).map fun b =>
              (((fetch b (dayWindowIso d).1 (dayWindowIso d).2).filter
                  fun e => eventStatus e == "afk").map eventDuration).sum := by
        rw [List.map_map]
        apply List.map_congr_left
        intro b _
        exact processBucket_snd _
      rw [hfst, hsnd]

/-- C4: `calculate_daily_time` returns `(0, 0)` when the bucket mapping is
empty, and also when no bucket id contains "afk" case-insensitively, even if
other buckets exist and have events. -/
theorem c4_no_afk_buckets (buckets : List String)
    (fetch : String → String → String → List Event) (d : ℚ) :
    (buckets = [] → calculate_daily_time buckets fetch d = (0, 0)) ∧
    ((∀ b ∈ buckets, containsAfk b = false) →
      calculate_daily_time buckets fetch d = (0, 0)) := by
  constructor
  · intro h
    subst h
    rfl
  · intro h
    have hf : buckets.filter (fun bid => containsAfk bid) = [] := by
      rw [List.filter_eq_nil_iff]
      intro b hb
      simp [h b hb]
    simp [calculate_daily_time, hf]

/-- Witness for C4: a non-AFK bucket whose fetch would return a nonzero
event still yields `(0, 0)`. -/
theorem c4_no_afk_buckets_witness :
    calculate_daily_time ["aw-watcher-window_myhost"]
      (fun _ _ _ => [⟨some 3600, some ⟨some "not-afk"⟩⟩]) 0 = (0, 0) :=
  (c4_no_afk_buckets ["aw-watcher-window_myhost"]
    (fun _ _ _ => [⟨some 3600, some ⟨some "not-afk"⟩⟩]) 0).2 (by decide)

/-- C10: a missing "duration" key is read as duration 0; a missing "data"
object or "status" key is read as status "unknown", which contributes to
neither the active nor the idle sum (the computation is total, so no such
malformed event makes it fail). -/
theorem c10_malformed_events (e : Event) (es : List Event) :
    (e.duration = none → eventDuration e = 0) ∧
    ((e.data = none ∨ e.data = some ⟨none⟩) → eventStatus e = "unknown") ∧
    (eventStatus e = "unknown" →
      activeContrib e = 0 ∧ idleContrib e = 0 ∧
      processBucket (es ++ [e]) = processBucket es) := by
  refine ⟨?_, ?_, ?_⟩
  · intro h
    simp [eventDuration, h]
  · rintro (h | h) <;> simp [eventStatus, h]
  · intro h
    have ha : activeContrib e = 0 := by simp [activeContrib, h]
    have hi : idleContrib e = 0 := by simp [idleContrib, h]
    refine ⟨ha, hi, ?_⟩
    simp [processBucket, ha, hi]

/-- Witness for C10 at concrete malformed events. -/
theorem c10_malformed_events_witness :
    eventDuration ⟨none, some ⟨some "not-afk"⟩⟩ = 0 ∧
    eventStatus ⟨some 5, none⟩ = "unknown" ∧
    processBucket ([⟨some 3600, some ⟨some "not-afk"⟩⟩] ++ [⟨some 5, none⟩])
      = processBucket [⟨some 3600, some ⟨some "not-afk"⟩⟩] :=
  ⟨(c10_malformed_events ⟨none, some ⟨some "not-afk"⟩⟩ []).1 rfl,
   (c10_malformed_events ⟨some 5, none⟩ []).2.1 (Or.inl rfl),
   ((c10_malformed_events ⟨some 5, none⟩
      [⟨some 3600, some ⟨some "not-afk"⟩⟩]).2.2 rfl).2.2⟩

/-! ### Concrete-evaluation helpers (instants written as whole days plus a
second-of-day offset) -/

lemma dayIndex_rat_zero (c : ℚ) (h1 : 0 ≤ c) (h2 : c < 86400) : dayIndex c = 0 := by
  unfold dayIndex
  rw [Int.floor_eq_zero_iff, Set.mem_Ico]
  constructor
  · positivity
  · rw [div_lt_one (by norm_num)]
    exact h2

lemma dayIndex_shift (n : ℤ) (c : ℚ) (h1 : 0 ≤ c) (h2 : c < 86400) :
    dayIndex ((86400 : ℚ) * (n : ℚ) + c) = n := by
  rw [show (86400 : ℚ) * (n : ℚ) + c = c + (n : ℚ) * 86400 by ring, dayIndex_add_mul,
    dayIndex_rat_zero c h1 h2]
  omega

lemma timeOfDay_shift (n : ℤ) (c : ℚ) (h1 : 0 ≤ c) (h2 : c < 86400) :
    timeOfDay ((86400 : ℚ) * (n : ℚ) + c) = c := by
  unfold timeOfDay dayStart
  rw [dayIndex_shift n c h1 h2]
  ring

lemma dayStart_shift (n : ℤ) (c : ℚ) (h1 : 0 ≤ c) (h2 : c < 86400) :
    dayStart ((86400 : ℚ) * (n : ℚ) + c) = (86400 : ℚ) * (n : ℚ) := by
  unfold dayStart
  rw [dayIndex_shift n c h1 h2]

lemma fmtHMS_shift_eval (n : ℤ) (s : ℕ) (hs : s < 86400) :
    fmtHMS ((86400 : ℚ) * (n : ℚ) + (s : ℚ))
      = pad2 (s / 3600) ++ ":" ++ pad2 (s % 3600 / 60) ++ ":" ++ pad2 (s % 60) := by
  unfold fmtHMS
  rw [timeOfDay_shift n (s : ℚ) (by positivity) (by exact_mod_cast hs),
    Int.floor_natCast, Int.toNat_natCast]

/-- C7: `calculate_finish_time` returns the literal completion message when
`activeHours ≥ targetHours`; otherwise it returns now + (targetHours -
activeHours) hours rendered as a 24-hour HH:MM:SS clock time with no date
component (shifting `now` by any whole number of days leaves the output
unchanged, i.e. it wraps past midnight silently). -/
theorem c7_finish_time (activeHours targetHours now : ℚ) :
    (activeHours ≥ targetHours →
      calculate_finish_time activeHours targetHours now
        = "Already completed target hours!") ∧
    (activeHours < targetHours →
      calculate_finish_time activeHours targetHours now
          = fmtHMS (now + (targetHours - activeHours) * 3600) ∧
      isHMS (calculate_finish_time activeHours targetHours now) = true ∧
      ∀ k : ℤ, calculate_finish_time activeHours targetHours (now + (k : ℚ) * 86400)
          = calculate_finish_time activeHours targetHours now) := by
  constructor
  · intro h
    simp [calculate_finish_time, h]
  · intro h
    have hn : ¬ activeHours ≥ targetHours := not_le.mpr h
    have he : calculate_finish_time activeHours targetHours now
        = fmtHMS (now + (targetHours - activeHours) * 3600) := by
      simp [calculate_finish_time, hn]
    refine ⟨he, ?_, ?_⟩
    · rw [he]
      exact fmtHMS_isHMS _
    · intro k
      have he2 : calculate_finish_time activeHours targetHours (now + (k : ℚ) * 86400)
          = fmtHMS (now + (k : ℚ) * 86400 + (targetHours - activeHours) * 3600) := by
        simp [calculate_finish_time, hn]
      rw [he, he2, show now + (k : ℚ) * 86400 + (targetHours - activeHours) * 3600
          = (now + (targetHours - activeHours) * 3600) + (k : ℚ) * 86400 by ring,
        fmtHMS_add_mul]

/-- Witness for C7: at 10:00:00 on 2025-05-27 with 4 of 8 hours done the
finish estimate is 14:00:00; with 8 of 8 hours done the literal message is
returned. -/
theorem c7_finish_time_witness :
    calculate_finish_time 8 8 (civilDate 2025 5 27 + 10 * 3600)
        = "Already completed target hours!" ∧
    calculate_finish_time 4 8 (civilDate 2025 5 27 + 10 * 3600) = "14:00:00" := by
  have hd : civilDate 2025 5 27 = (86400 : ℚ) * ((739397 : ℤ) : ℚ) := by
    unfold civilDate
    rw [show daysFromCivil 2025 5 27 = 739397 from by decide]
  constructor
  · exact (c7_finish_time 8 8 (civilDate 2025 5 27 + 10 * 3600)).1 le_rfl
  · have h := ((c7_finish_time 4 8 (civilDate 2025 5 27 + 10 * 3600)).2 (by norm_num)).1
    rw [h, hd, show (86400 : ℚ) * ((739397 : ℤ) : ℚ) + 10 * 3600 + (8 - 4) * 3600
        = (86400 : ℚ) * ((739397 : ℤ) : ℚ) + ((50400 : ℕ) : ℚ) by push_cast; ring,
      fmtHMS_shift_eval 739397 50400 (by norm_num)]
    decide

/-- C5: `calculate_overtime_range` returns "" when `activeHours ≤
targetHours`; otherwise the window spans exactly `(activeHours -
targetHours) * 3600` seconds, ending at `now` when the target date is unset
or is `now`'s date, and ending at 18:00:00 plus the overtime (hence starting
at 18:00:00) on the target date otherwise, rendered "HH:MM:SS - HH:MM:SS". -/
theorem c5_overtime_range_correct (activeHours targetHours now : ℚ)
    (targetDate : Option ℚ) :
    (activeHours ≤ targetHours →
      calculate_overtime_range activeHours targetHours targetDate now = "") ∧
    (targetHours < activeHours →
      ((targetDate = none ∨ ∃ d, targetDate = some d ∧ dayIndex d = dayIndex now) →
        calculate_overtime_range activeHours targetHours targetDate now
          = fmtHMS (now - (activeHours - targetHours) * 3600) ++ " - " ++ fmtHMS now) ∧
      (∀ d, targetDate = some d → dayIndex d ≠ dayIndex now →
        calculate_overtime_range activeHours targetHours targetDate now
          = fmtHMS (dayStart d + 18 * 3600) ++ " - " ++
            fmtHMS (dayStart d + 18 * 3600 + (activeHours - targetHours) * 3600)) ∧
      (∃ u v, calculate_overtime_range activeHours targetHours targetDate now
          = u ++ " - " ++ v ∧ isHMS u = true ∧ isHMS v = true)) := by
  constructor
  · intro h
    simp [calculate_overtime_range, h]
  · intro h
    have hn : ¬ activeHours ≤ targetHours := not_le.mpr h
    have h1 : (targetDate = none ∨ ∃ d, targetDate = some d ∧ dayIndex d = dayIndex now) →
        calculate_overtime_range activeHours targetHours targetDate now
          = fmtHMS (now - (activeHours - targetHours) * 3600) ++ " - " ++ fmtHMS now := by
      rintro (rfl | ⟨d, rfl, hd⟩)
      · simp [calculate_overtime_range, hn]
      · simp [calculate_overtime_range, hn, hd]
    have h2 : ∀ d, targetDate = some d → dayIndex d ≠ dayIndex now →
        calculate_overtime_range activeHours targetHours targetDate now
          = fmtHMS (dayStart d + 18 * 3600) ++ " - " ++
            fmtHMS (dayStart d + 18 * 3600 + (activeHours - targetHours) * 3600) := by
      intro d hd hne
      subst hd
      simp only [calculate_overtime_range, hn, if_false]
      rw [if_neg hne]
      rw [show dayStart d + 18 * 3600 + (activeHours - targetHours) * 3600
          - (activeHours - targetHours) * 3600 = dayStart d + 18 * 3600 by ring]
    refine ⟨h1, h2, ?_⟩
    rcases targetDate with _ | d
    · exact ⟨_, _, h1 (Or.inl rfl), fmtHMS_isHMS _, fmtHMS_isHMS _⟩
    · by_cases hd : dayIndex d = dayIndex now
      · exact ⟨_, _, h1 (Or.inr ⟨d, rfl, hd⟩), fmtHMS_isHMS _, fmtHMS_isHMS _⟩
      · exact ⟨_, _, h2 d rfl hd, fmtHMS_isHMS _, fmtHMS_isHMS _⟩

/-- Witness for C5: 9 active / 8 target hours on historical 2025-05-26
(today being 2025-05-27 10:00:00) yields "18:00:00 - 19:00:00"; the same on
today's date yields "09:00:00 - 10:00:00" ending at now. -/
theorem c5_overtime_range_witness :
    calculate_overtime_range 9 8 (some (civilDate 2025 5 26))
        (civilDate 2025 5 27 + 10 * 3600) = "18:00:00 - 19:00:00" ∧
    calculate_overtime_range 9 8 (some (civilDate 2025 5 27))
        (civilDate 2025 5 27 + 10 * 3600) = "09:00:00 - 10:00:00" := by
  have hd26 : civilDate 2025 5 26 = (86400 : ℚ) * ((739396 : ℤ) : ℚ) := by
    unfold civilDate
    rw [show daysFromCivil 2025 5 26 = 739396 from by decide]
  have hd27 : civilDate 2025 5 27 = (86400 : ℚ) * ((739397 : ℤ) : ℚ) := by
    unfold civilDate
    rw [show daysFromCivil 2025 5 27 = 739397 from by decide]
  have hnow : dayIndex (civilDate 2025 5 27 + 10 * 3600) = 739397 := by
    rw [hd27, show (86400 : ℚ) * ((739397 : ℤ) : ℚ) + 10 * 3600
        = (86400 : ℚ) * ((739397 : ℤ) : ℚ) + ((36000 : ℕ) : ℚ) by norm_num]
    exact dayIndex_shift 739397 _ (by positivity) (by norm_num)
  constructor
  · have hne : dayIndex (civilDate 2025 5 26) ≠ dayIndex (civilDate 2025 5 27 + 10 * 3600) := by
      rw [hnow, hd26, dayIndex_int_mul]
      omega
    have h := ((c5_overtime_range_correct 9 8 (civilDate 2025 5 27 + 10 * 3600)
        (some (civilDate 2025 5 26))).2 (by norm_num)).2.1 (civilDate 2025 5 26) rfl hne
    have hds : dayStart ((86400 : ℚ) * ((739396 : ℤ) : ℚ)) = (86400 : ℚ) * ((739396 : ℤ) : ℚ) := by
      unfold dayStart
      rw [dayIndex_int_mul]
    rw [h, hd26, hds,
      show (86400 : ℚ) * ((739396 : ℤ) : ℚ) + 18 * 3600
        = (86400 : ℚ) * ((739396 : ℤ) : ℚ) + ((64800 : ℕ) : ℚ) by norm_num,
      show (86400 : ℚ) * ((739396 : ℤ) : ℚ) + ((64800 : ℕ) : ℚ) + (9 - 8) * 3600
        = (86400 : ℚ) * ((739396 : ℤ) : ℚ) + ((68400 : ℕ) : ℚ) by push_cast; ring_nf,
      fmtHMS_shift_eval 739396 64800 (by norm_num),
      fmtHMS_shift_eval 739396 68400 (by norm_num)]
    decide
  · have heq : dayIndex (civilDate 2025 5 27) = dayIndex (civilDate 2025 5 27 + 10 * 3600) := by
      rw [hnow, hd27, dayIndex_int_mul]
    have h := ((c5_overtime_range_correct 9 8 (civilDate 2025 5 27 + 10 * 3600)
        (some (civilDate 2025 5 27))).2 (by norm_num)).1
        (Or.inr ⟨civilDate 2025 5 27, rfl, heq⟩)
    rw [h, hd27,
      show (86400 : ℚ) * ((739397 : ℤ) : ℚ) + 10 * 3600 - (9 - 8) * 3600
        = (86400 : ℚ) * ((739397 : ℤ) : ℚ) + ((32400 : ℕ) : ℚ) by push_cast; ring_nf,
      show (86400 : ℚ) * ((739397 : ℤ) : ℚ) + 10 * 3600
        = (86400 : ℚ) * ((739397 : ℤ) : ℚ) + ((36000 : ℕ) : ℚ) by norm_num,
      fmtHMS_shift_eval 739397 32400 (by norm_num),
      fmtHMS_shift_eval 739397 36000 (by norm_num)]
    decide

/-- C6: `calculate_holiday_overtime_range` returns "" for `activeHours ≤ 0`;
otherwise the window spans `activeHours * 3600` seconds, ending at `now`
when the target date is unset or is `now`'s date, and starting at 09:00:00
on the target date otherwise (an anchoring deliberately asymmetric to
`calculate_overtime_range`'s 18:00-based historical anchor), rendered
"HH:MM:SS - HH:MM:SS". -/
theorem c6_holiday_overtime_range_correct (activeHours now : ℚ)
    (targetDate : Option ℚ) :
    (activeHours ≤ 0 →
      calculate_holiday_overtime_range activeHours targetDate now = "") ∧
    (0 < activeHours →
      ((targetDate = none ∨ ∃ d, targetDate = some d ∧ dayIndex d = dayIndex now) →
        calculate_holiday_overtime_range activeHours targetDate now
          = fmtHMS (now - activeHours * 3600) ++ " - " ++ fmtHMS now) ∧
      (∀ d, targetDate = some d → dayIndex d ≠ dayIndex now →
        calculate_holiday_overtime_range activeHours targetDate now
          = fmtHMS (dayStart d + 9 * 3600) ++ " - " ++
            fmtHMS (dayStart d + 9 * 3600 + activeHours * 3600)) ∧
      (∃ u v, calculate_holiday_overtime_range activeHours targetDate now
          = u ++ " - " ++ v ∧ isHMS u = true ∧ isHMS v = true)) := by
  constructor
  · intro h
    simp [calculate_holiday_overtime_range, h]
  · intro h
    have hn : ¬ activeHours ≤ 0 := not_le.mpr h
    have h1 : (targetDate = none ∨ ∃ d, targetDate = some d ∧ dayIndex d = dayIndex now) →
        calculate_holiday_overtime_range activeHours targetDate now
          = fmtHMS (now - activeHours * 3600) ++ " - " ++ fmtHMS now := by
      rintro (rfl | ⟨d, rfl, hd⟩)
      · simp [calculate_holiday_overtime_range, hn]
      · simp [calculate_holiday_overtime_range, hn, hd]
    have h2 : ∀ d, targetDate = some d → dayIndex d ≠ dayIndex now →
        calculate_holiday_overtime_range activeHours targetDate now
          = fmtHMS (dayStart d + 9 * 3600) ++ " - " ++
            fmtHMS (dayStart d + 9 * 3600 + activeHours * 3600) := by
      intro d hd hne
      subst hd
      simp only [calculate_holiday_overtime_range, hn, if_false]
      rw [if_neg hne]
      rw [show dayStart d + 9 * 3600 + activeHours * 3600 - activeHours * 3600
          = dayStart d + 9 * 3600 by ring]
    refine ⟨h1, h2, ?_⟩
    rcases targetDate with _ | d
    · exact ⟨_, _, h1 (Or.inl rfl), fmtHMS_isHMS _, fmtHMS_isHMS _⟩
    · by_cases hd : dayIndex d = dayIndex now
      · exact ⟨_, _, h1 (Or.inr ⟨d, rfl, hd⟩), fmtHMS_isHMS _, fmtHMS_isHMS _⟩
      · exact ⟨_, _, h2 d rfl hd, fmtHMS_isHMS _, fmtHMS_isHMS _⟩

/-- Witness for C6: 2 active hours on historical Saturday 2025-05-24 (today
being 2025-05-27 10:00:00) yields "09:00:00 - 11:00:00" — starting at 09:00,
unlike `calculate_overtime_range`'s 18:00 end anchor. -/
theorem c6_holiday_overtime_range_witness :
    calculate_holiday_overtime_range 2 (some (civilDate 2025 5 24))
        (civilDate 2025 5 27 + 10 * 3600) = "09:00:00 - 11:00:00" := by
  have hd24 : civilDate 2025 5 24 = (86400 : ℚ) * ((739394 : ℤ) : ℚ) := by
    unfold civilDate
    rw [show daysFromCivil 2025 5 24 = 739394 from by decide]
  have hd27 : civilDate 2025 5 27 = (86400 : ℚ) * ((739397 : ℤ) : ℚ) := by
    unfold civilDate
    rw [show daysFromCivil 2025 5 27 = 739397 from by decide]
  have hnow : dayIndex (civilDate 2025 5 27 + 10 * 3600) = 739397 := by
    rw [hd27, show (86400 : ℚ) * ((739397 : ℤ) : ℚ) + 10 * 3600
        = (86400 : ℚ) * ((739397 : ℤ) : ℚ) + ((36000 : ℕ) : ℚ) by norm_num]
    exact dayIndex_shift 739397 _ (by positivity) (by norm_num)
  have hne : dayIndex (civilDate 2025 5 24) ≠ dayIndex (civilDate 2025 5 27 + 10 * 3600) := by
    rw [hnow, hd24, dayIndex_int_mul]
    omega
  have h := ((c6_holiday_overtime_range_correct 2 (civilDate 2025 5 27 + 10 * 3600)
      (some (civilDate 2025 5 24))).2 (by norm_num)).2.1 (civilDate 2025 5 24) rfl hne
  have hds : dayStart ((86400 : ℚ) * ((739394 : ℤ) : ℚ)) = (86400 : ℚ) * ((739394 : ℤ) : ℚ) := by
    unfold dayStart
    rw [dayIndex_int_mul]
  rw [h, hd24, hds,
    show (86400 : ℚ) * ((739394 : ℤ) : ℚ) + 9 * 3600
      = (86400 : ℚ) * ((739394 : ℤ) : ℚ) + ((32400 : ℕ) : ℚ) by norm_num,
    show (86400 : ℚ) * ((739394 : ℤ) : ℚ) + ((32400 : ℕ) : ℚ) + 2 * 3600
      = (86400 : ℚ) * ((739394 : ℤ) : ℚ) + ((39600 : ℕ) : ℚ) by push_cast; ring_nf,
    fmtHMS_shift_eval 739394 32400 (by norm_num),
    fmtHMS_shift_eval 739394 39600 (by norm_num)]
  decide

/-- C2: `calculate_weekly_time d` returns the sums of the per-day active and
idle hours over the 7 consecutive days starting at `get_week_range d`'s week
start, and a breakdown of exactly 7 (label, activeHours) pairs whose day
names run Monday through Sunday in calendar order. -/
theorem c2_weekly_time_correct (buckets : List String)
    (fetch : String → String → String → List Event) (d : ℚ) :
    calculate_weekly_time buckets fetch d =
      (((List.range 7).map fun (i : ℕ) =>
          (calculate_daily_time buckets fetch
            ((get_week_range d).1 + (i : ℚ) * 86400)).1).sum,
       ((List.range 7).map fun (i : ℕ) =>
          (calculate_daily_time buckets fetch
            ((get_week_range d).1 + (i : ℚ) * 86400)).2).sum,
       (List.range 7).map fun (i : ℕ) =>
         (weekdayName (i : ℤ) ++ " ("
            ++ isoDateStr ((get_week_range d).1 + (i : ℚ) * 86400) ++ ")",
          (calculate_daily_time buckets fetch
            ((get_week_range d).1 + (i : ℚ) * 86400)).1))
    ∧ (calculate_weekly_time buckets fetch d).2.2.length = 7 := by
  constructor
  · simp only [calculate_weekly_time, List.map_map, Function.comp_def]
    refine congrArg₂ Prod.mk rfl (congrArg₂ Prod.mk rfl ?_)
    apply List.map_congr_left
    intro i hi
    rw [weekday_week_add d i (List.mem_range.mp hi)]
  · simp [calculate_weekly_time]

/-- C9 (amended): `calculate_daily_time` queries events over the half-open
window [that day's 00:00:00 local, +24h), and both window bounds passed to
the events request are naive local ISO-8601 strings carrying NO UTC offset
(the Python datetimes are naive, so `isoformat()` emits no offset). -/
theorem c9_day_window_no_offset (d : ℚ) :
    (dayWindow d).1 = dayStart d ∧
    timeOfDay (dayWindow d).1 = 0 ∧
    dayIndex (dayWindow d).1 = dayIndex d ∧
    (dayWindow d).2 = (dayWindow d).1 + 86400 ∧
    dayWindowIso d = (isoformat (dayWindow d).1, isoformat (dayWindow d).2) ∧
    hasUtcOffset (dayWindowIso d).1 = false ∧
    hasUtcOffset (dayWindowIso d).2 = false := by
  have h1 : timeOfDay (dayStart d) = 0 := timeOfDay_dayStart d
  have h2 : timeOfDay (dayStart d + 86400) = 0 := by
    rw [show dayStart d + 86400 = dayStart d + ((1 : ℤ) : ℚ) * 86400 by push_cast; ring,
      timeOfDay_add_mul]
    exact h1
  refine ⟨rfl, h1, dayIndex_dayStart d, rfl, rfl, ?_, ?_⟩
  · show hasUtcOffset (isoformat (dayStart d)) = false
    rw [isoformat_of_tod0 _ h1]
    exact hasUtcOffset_T00 _
  · show hasUtcOffset (isoformat (dayStart d + 86400)) = false
    rw [isoformat_of_tod0 _ h2]
    exact hasUtcOffset_T00 _

/-- Counterexample for C9 as stated: for the concrete date 2025-05-27 the
start bound sent to the events request is the naive string
"2025-05-27T00:00:00", and neither bound carries a UTC offset — the claim
that the bounds "include a UTC offset" is false. -/
theorem c9_counterexample_no_offset :
    (dayWindowIso (civilDate 2025 5 27)).1 = "2025-05-27T00:00:00" ∧
    hasUtcOffset (dayWindowIso (civilDate 2025 5 27)).1 = false ∧
    hasUtcOffset (dayWindowIso (civilDate 2025 5 27)).2 = false := by
  have hd27 : civilDate 2025 5 27 = (86400 : ℚ) * ((739397 : ℤ) : ℚ) := by
    unfold civilDate
    rw [show daysFromCivil 2025 5 27 = 739397 from by decide]
  have htod : timeOfDay (dayStart (civilDate 2025 5 27)) = 0 := timeOfDay_dayStart _
  have htod2 : timeOfDay (dayStart (civilDate 2025 5 27) + 86400) = 0 := by
    rw [show dayStart (civilDate 2025 5 27) + 86400
        = dayStart (civilDate 2025 5 27) + ((1 : ℤ) : ℚ) * 86400 by push_cast; ring,
      timeOfDay_add_mul]
    exact htod
  have hds : dayStart (civilDate 2025 5 27) = (86400 : ℚ) * ((739397 : ℤ) : ℚ) := by
    rw [hd27]
    unfold dayStart
    rw [dayIndex_int_mul]
  refine ⟨?_, ?_, ?_⟩
  · show isoformat (dayStart (civilDate 2025 5 27)) = "2025-05-27T00:00:00"
    rw [isoformat_of_tod0 _ htod]
    have hiso : isoDateStr (dayStart (civilDate 2025 5 27)) = "2025-05-27" := by
      simp only [isoDateStr]
      rw [hds, dayIndex_int_mul]
      decide
    rw [hiso]
    decide
  · show hasUtcOffset (isoformat (dayStart (civilDate 2025 5 27))) = false
    rw [isoformat_of_tod0 _ htod]
    exact hasUtcOffset_T00 _
  · show hasUtcOffset (isoformat (dayStart (civilDate 2025 5 27) + 86400)) = false
    rw [isoformat_of_tod0 _ htod2]
    exact hasUtcOffset_T00 _
